import Mathlib

/-!
Shallow embedding of `src/fork/mod.rs` from the pty-rs repository.

The `Fork` orchestrator in `fork/mod.rs` drives opaque OS/pty primitives
(master open, grantpt, unlockpt, fork, ptsname, setsid, slave open, dup2,
waitpid).  Those primitives live outside the orchestrator (the `pty`
module, `libc`); here they are abstracted as an `Oracle` that fixes the
outcome of every primitive call, and each orchestration function also
returns the list of primitive calls it performed (`Event` trace), so that
ordering and "never invoked" properties can be stated.
-/

namespace PtyRs

/-- Modelled from the spec: the pty module (not under `src/`) wraps an
underlying OS failure code in its master-side errors; we represent that
cause as a bare numeric code. -/
abbrev MasterError := Nat

/-- Modelled from the spec: the slave-side OS failure code, as for
`MasterError`. -/
abbrev SlaveError := Nat

/-- Modelled from the spec: `Master` owns the PTY master-side descriptor;
`clone()` yields an aliasing handle to the same descriptor, so a handle is
determined by that descriptor value. -/
structure Master where
  fd : Nat

deriving instance DecidableEq, Repr for Master

/-- Modelled from the spec: `Slave` owns the PTY slave-side descriptor. -/
structure Slave where
  fd : Nat

deriving instance DecidableEq, Repr for Slave

/-- `ForkError` from `fork/err.rs` as re-exported and used by
`fork/mod.rs`: the closed taxonomy of failure reasons. -/
inductive ForkError where
  | BadMaster : MasterError → ForkError
  | BadSlave : SlaveError → ForkError
  | Failure : ForkError
  | SetsidFail : ForkError
  | WaitpidFail : ForkError
  | IsParent : ForkError
  | IsChild : ForkError

deriving instance DecidableEq, Repr for ForkError

/-- The `Fork` enum of `fork/mod.rs`: `Parent(pid, master)` or
`Child(slave)`. -/
inductive Fork where
  | Parent : Int → Master → Fork
  | Child : Slave → Fork

deriving instance DecidableEq, Repr for Fork

/-- One primitive OS/pty call performed by the orchestrator; the trace of
these events records which primitives ran and in which order. -/
inductive Event where
  | masterNewCall : List Nat → Event
  | grantptCall : Event
  | unlockptCall : Event
  | forkCall : Event
  | ptsnameCall : Event
  | setsidCall : Event
  | slaveNewCall : List Nat → Event
  | dup2Call : Int → Event
  | waitpidCall : Int → Event

deriving instance DecidableEq, Repr for Event

/-- `libc::STDIN_FILENO`. -/
def STDIN_FILENO : Int := 0

/-- `libc::STDOUT_FILENO`. -/
def STDOUT_FILENO : Int := 1

/-- `libc::STDERR_FILENO`. -/
def STDERR_FILENO : Int := 2

/-- An oracle fixing the outcome of every opaque primitive call made by
the orchestrator.  A path / C string is a list of byte values.
`grantpt`/`unlockpt` return `none` on success and `some cause` on failure,
mirroring Rust's `Result<_, E>::err()`.  `waitpid` maps the waited pid and
the call index (how many `waitpid` calls happened before) to the pair
(return value, status written through the out-pointer). -/
structure Oracle where
  masterNew : List Nat → Except MasterError Master
  grantpt : Master → Option MasterError
  unlockpt : Master → Option MasterError
  forkRes : Int
  ptsname : Master → Except MasterError (List Nat)
  setsidRes : Int
  slaveNew : List Nat → Except SlaveError Slave
  dup2 : Slave → Int → Except SlaveError Int
  waitpid : Int → Nat → Int × Int

/-- `CString::new(path)` (line 24 of `fork/mod.rs`): fails exactly when
the byte string contains a NUL byte. -/
def cstringNew (path : List Nat) : Option (List Nat) :=
  if 0 ∈ path then none else some path

/-- `CString::new(path).ok().unwrap_or_default()` (line 24): a failed
conversion is silently replaced by the default (empty) C string. -/
def cstringOf (path : List Nat) : List Nat :=
  (cstringNew path).getD []

/-- `Fork::from_pts` (lines 48-67): in the child, become session leader
via `setsid`, open the slave by the resolved name, then `dup2` it onto
stdin, stdout, stderr via an `and_then` chain, wrapping any slave-side
error in `BadSlave` through the final `or_else`.  The second component is
the trace of primitive calls performed. -/
def Fork.from_pts (o : Oracle) (name : List Nat) :
    Except ForkError Fork × List Event :=
  if o.setsidRes = -1 then
    (Except.error ForkError.SetsidFail, [Event.setsidCall])
  else
    match o.slaveNew name with
    | Except.error cause =>
        (Except.error (ForkError.BadSlave cause),
          [Event.setsidCall, Event.slaveNewCall name])
    | Except.ok slave =>
        match o.dup2 slave STDIN_FILENO with
        | Except.error e =>
            (Except.error (ForkError.BadSlave e),
              [Event.setsidCall, Event.slaveNewCall name,
               Event.dup2Call STDIN_FILENO])
        | Except.ok _ =>
            match o.dup2 slave STDOUT_FILENO with
            | Except.error e =>
                (Except.error (ForkError.BadSlave e),
                  [Event.setsidCall, Event.slaveNewCall name,
                   Event.dup2Call STDIN_FILENO, Event.dup2Call STDOUT_FILENO])
            | Except.ok _ =>
                match o.dup2 slave STDERR_FILENO with
                | Except.error e =>
                    (Except.error (ForkError.BadSlave e),
                      [Event.setsidCall, Event.slaveNewCall name,
                       Event.dup2Call STDIN_FILENO, Event.dup2Call STDOUT_FILENO,
                       Event.dup2Call STDERR_FILENO])
                | Except.ok _ =>
                    (Except.ok (Fork.Child slave),
                      [Event.setsidCall, Event.slaveNewCall name,
                       Event.dup2Call STDIN_FILENO, Event.dup2Call STDOUT_FILENO,
                       Event.dup2Call STDERR_FILENO])

/-- `Fork::new` (lines 23-43).  Note that Rust's
`master.grantpt().err().or(master.unlockpt().err())` evaluates its
argument eagerly, so `unlockpt` runs even when `grantpt` failed, and the
grant failure's cause wins; the two-way match below mirrors this. -/
def Fork.new (o : Oracle) (path : List Nat) :
    Except ForkError Fork × List Event :=
  match o.masterNew (cstringOf path) with
  | Except.error cause =>
      (Except.error (ForkError.BadMaster cause),
        [Event.masterNewCall (cstringOf path)])
  | Except.ok master =>
      match o.grantpt master, o.unlockpt master with
      | some cause, _ =>
          (Except.error (ForkError.BadMaster cause),
            [Event.masterNewCall (cstringOf path), Event.grantptCall,
             Event.unlockptCall])
      | none, some cause =>
          (Except.error (ForkError.BadMaster cause),
            [Event.masterNewCall (cstringOf path), Event.grantptCall,
             Event.unlockptCall])
      | none, none =>
          if o.forkRes = -1 then
            (Except.error ForkError.Failure,
              [Event.masterNewCall (cstringOf path), Event.grantptCall,
               Event.unlockptCall, Event.forkCall])
          else if o.forkRes = 0 then
            match o.ptsname master with
            | Except.error cause =>
                (Except.error (ForkError.BadMaster cause),
                  [Event.masterNewCall (cstringOf path), Event.grantptCall,
                   Event.unlockptCall, Event.forkCall, Event.ptsnameCall])
            | Except.ok name =>
                match Fork.from_pts o name with
                | (res, evs) =>
                    (res,
                      [Event.masterNewCall (cstringOf path), Event.grantptCall,
                       Event.unlockptCall, Event.forkCall,
                       Event.ptsnameCall] ++ evs)
          else
            (Except.ok (Fork.Parent o.forkRes master),
              [Event.masterNewCall (cstringOf path), Event.grantptCall,
               Event.unlockptCall, Event.forkCall])

/-- Modelled from the spec: the process-wide compiled-in default PTY
multiplexer device path (the `DEFAULT_PTMX` constant at the crate root is
not under `src/`); the standard multiplexer device `/dev/ptmx` as bytes. -/
def DEFAULT_PTMX : List Nat := [47, 100, 101, 118, 47, 112, 116, 109, 120]

/-- `Fork::from_ptmx` (lines 71-73): `Fork::new(::DEFAULT_PTMX)`. -/
def Fork.from_ptmx (o : Oracle) : Except ForkError Fork × List Event :=
  Fork.new o DEFAULT_PTMX

/-- The `loop` of `Fork::wait` (lines 82-90), with explicit fuel: call
`waitpid`; on return 0 retry, on -1 return `Err(WaitpidFail)`, otherwise
return `Ok(status)` with the status just written.  `k` counts the
`waitpid` calls already made; `none` means the fuel ran out before the
loop returned. -/
def waitLoop (o : Oracle) (pid : Int) :
    Nat → Nat → Option (Except ForkError Int × List Event)
  | 0, _ => none
  | Nat.succ fuel, k =>
      let r := o.waitpid pid k
      if r.1 = 0 then
        match waitLoop o pid fuel (k + 1) with
        | none => none
        | some (res, evs) => some (res, Event.waitpidCall pid :: evs)
      else if r.1 = -1 then
        some (Except.error ForkError.WaitpidFail, [Event.waitpidCall pid])
      else
        some (Except.ok r.2, [Event.waitpidCall pid])

/-- `Fork::wait` (lines 77-93): on a `Child` fail immediately with
`IsChild` (no `waitpid` call, hence the empty trace, whatever the fuel);
on a `Parent` run the retry loop on the stored pid. -/
def Fork.wait (o : Oracle) (f : Fork) (fuel : Nat) :
    Option (Except ForkError Int × List Event) :=
  match f with
  | Fork.Child _ => some (Except.error ForkError.IsChild, [])
  | Fork.Parent pid _ => waitLoop o pid fuel 0

/-- `Fork::is_parent` (lines 97-102): `Err(IsChild)` on a `Child`,
`Ok(master.clone())` on a `Parent` (the clone aliases the same
descriptor, so it is the same `Master` value in this model). -/
def Fork.is_parent : Fork → Except ForkError Master
  | Fork.Child _ => Except.error ForkError.IsChild
  | Fork.Parent _ master => Except.ok master

/-- `Fork::is_child` (lines 106-111): `Err(IsParent)` on a `Parent`,
`Ok(&slave)` on a `Child`. -/
def Fork.is_child : Fork → Except ForkError Slave
  | Fork.Parent _ _ => Except.error ForkError.IsParent
  | Fork.Child slave => Except.ok slave

/-- A cleanup action performed by `Drop for Fork`. -/
inductive DropAction where
  | releaseMaster : Nat → DropAction

deriving instance DecidableEq, Repr for DropAction

/-- `impl Drop for Fork` (lines 114-121): a `Parent` releases its
master's descriptor via `Descriptor::drop`; the wildcard arm does nothing
for a `Child`. -/
def Fork.dropActions : Fork → List DropAction
  | Fork.Parent _ master => [DropAction.releaseMaster master.fd]
  | Fork.Child _ => []

/-- Whether a `Fork::new` result is an `Err(BadSlave(_))`. -/
def isBadSlaveRes : Except ForkError Fork → Bool
  | Except.error (ForkError.BadSlave _) => true
  | _ => false

/-- A concrete oracle on which every primitive succeeds (fork lands in the
child branch, `forkRes = 0`). -/
def oAllOk : Oracle where
  masterNew := fun _ => Except.ok ⟨3⟩
  grantpt := fun _ => none
  unlockpt := fun _ => none
  forkRes := 0
  ptsname := fun _ => Except.ok [9]
  setsidRes := 0
  slaveNew := fun _ => Except.ok ⟨4⟩
  dup2 := fun _ _ => Except.ok 0
  waitpid := fun _ _ => (7, 42)

/-- Like `oAllOk` but `grantpt` fails with cause 5. -/
def oGrantFail : Oracle :=
  { oAllOk with grantpt := fun _ => some 5 }

/-- Like `oAllOk` but `ptsname` fails with cause 7. -/
def oPtsnameFail : Oracle :=
  { oAllOk with ptsname := fun _ => Except.error 7 }

/-- Claim C4: on a `Child`-variant value, `wait` fails immediately with
`IsChild`: the result is returned for every fuel (even zero, so the
blocking/retry loop is never entered) and the trace is empty (the
underlying wait primitive is never invoked). -/
theorem wait_on_child_fails_IsChild (o : Oracle) (s : Slave) (fuel : Nat) :
    Fork.wait o (Fork.Child s) fuel =
      some (Except.error ForkError.IsChild, []) := rfl

/-- Claim C5: for every `Fork` value, exactly one of `is_parent` /
`is_child` succeeds and the other fails with the complementary-variant
error (`is_parent` on a `Child` yields `Err(IsChild)`, `is_child` on a
`Parent` yields `Err(IsParent)`).  Both accessors are pure functions of
the `Fork` value in this embedding (they take `&self` and build their
result from it), so the probe mutates no state. -/
theorem accessors_complementary (f : Fork) :
    (∃ pid m, f = Fork.Parent pid m ∧
      f.is_parent = Except.ok m ∧
      f.is_child = Except.error ForkError.IsParent) ∨
    (∃ s, f = Fork.Child s ∧
      f.is_child = Except.ok s ∧
      f.is_parent = Except.error ForkError.IsChild) := by
  cases f with
  | Parent pid m => exact Or.inl ⟨pid, m, rfl, rfl, rfl⟩
  | Child s => exact Or.inr ⟨s, rfl, rfl, rfl⟩

/-- Claim C8: `from_ptmx` is extensionally equal to `Fork::new` applied
to the compiled-in default PTY-multiplexer device path, for every oracle
behavior. -/
theorem from_ptmx_eq_new_default (o : Oracle) :
    Fork.from_ptmx o = Fork.new o DEFAULT_PTMX := rfl

/-- Claim C9: dropping a `Parent` releases its master's descriptor and
nothing else; dropping a `Child` performs no explicit action. -/
theorem drop_releases_master_only (pid : Int) (m : Master) (s : Slave) :
    Fork.dropActions (Fork.Parent pid m) = [DropAction.releaseMaster m.fd] ∧
    Fork.dropActions (Fork.Child s) = [] := ⟨rfl, rfl⟩

/-- Claim C3: when `grantpt` fails, `Fork::new` returns
`Err(BadMaster(cause))` with the grant failure's cause (Rust's eager
`Option::or` prefers the first error) and the process-duplication
primitive is never invoked. -/
theorem grant_fail_no_fork (o : Oracle) (path : List Nat) (master : Master)
    (cause : MasterError)
    (hm : o.masterNew (cstringOf path) = Except.ok master)
    (hg : o.grantpt master = some cause) :
    (Fork.new o path).1 = Except.error (ForkError.BadMaster cause) ∧
    Event.forkCall ∉ (Fork.new o path).2 := by
  have key : Fork.new o path =
      (Except.error (ForkError.BadMaster cause),
        [Event.masterNewCall (cstringOf path), Event.grantptCall,
         Event.unlockptCall]) := by
    simp [Fork.new, hm, hg]
  rw [key]
  exact ⟨rfl, by simp⟩

/-- Witness for C3: on `oGrantFail` the grant failure (cause 5) surfaces
as `BadMaster 5` with no fork call. -/
theorem grant_fail_no_fork_witness :
    (Fork.new oGrantFail [47]).1 = Except.error (ForkError.BadMaster 5) ∧
    Event.forkCall ∉ (Fork.new oGrantFail [47]).2 :=
  grant_fail_no_fork oGrantFail [47] ⟨3⟩ 5 rfl rfl

/-- Counterexample to claim C1 as stated: when `ptsname` fails in the
child branch (oracle `oPtsnameFail`, cause 7), `Fork::new` returns
`Err(BadMaster 7)` — not `Err(BadSlave _)` as the claim asserts
(`fork/mod.rs` line 34 wraps the cause in `BadMaster`). -/
theorem child_ptsname_fail_not_BadSlave :
    (Fork.new oPtsnameFail [47]).1 = Except.error (ForkError.BadMaster 7) ∧
    isBadSlaveRes (Fork.new oPtsnameFail [47]).1 = false :=
  ⟨rfl, rfl⟩

/-- Amended claim C1: in the child branch, when `ptsname` on the Master
fails, `Fork::new` returns `Err(BadMaster(cause))` wrapping the
underlying cause, for every possible `ptsname` failure. -/
theorem child_ptsname_fail_BadMaster (o : Oracle) (path : List Nat)
    (master : Master) (cause : MasterError)
    (hm : o.masterNew (cstringOf path) = Except.ok master)
    (hg : o.grantpt master = none) (hu : o.unlockpt master = none)
    (hf : o.forkRes = 0)
    (hp : o.ptsname master = Except.error cause) :
    (Fork.new o path).1 = Except.error (ForkError.BadMaster cause) := by
  simp [Fork.new, hm, hg, hu, hf, hp]

/-- Witness for amended C1: on `oPtsnameFail` all hypotheses hold and the
result is `BadMaster 7`. -/
theorem child_ptsname_fail_BadMaster_witness :
    (Fork.new oPtsnameFail [47]).1 = Except.error (ForkError.BadMaster 7) :=
  child_ptsname_fail_BadMaster oPtsnameFail [47] ⟨3⟩ 7 rfl rfl rfl rfl rfl

/-- Claim C7: in the child, if `setsid` fails the result is
`Err(SetsidFail)` and the slave device is never opened (its trace is just
the `setsid` call); moreover for every oracle and name the very first
primitive call of `from_pts` is `setsid`, so the session-leader change is
attempted before the slave is opened. -/
theorem setsid_fail_no_slave_open (o : Oracle) (name : List Nat)
    (h : o.setsidRes = -1) :
    Fork.from_pts o name =
      (Except.error ForkError.SetsidFail, [Event.setsidCall]) ∧
    (∀ nm, Event.slaveNewCall nm ∉ (Fork.from_pts o name).2) ∧
    (∀ o' nm, ((Fork.from_pts o' nm).2).head? = some Event.setsidCall) := by
  refine ⟨by simp [Fork.from_pts, h], ?_, ?_⟩
  · intro nm
    simp [Fork.from_pts, h]
  · intro o' nm
    unfold Fork.from_pts
    repeat' split
    all_goals rfl

/-- Witness for C7: on an oracle whose `setsid` fails, `from_pts` stops
at `SetsidFail` having called only `setsid`. -/
theorem setsid_fail_no_slave_open_witness :
    Fork.from_pts { oAllOk with setsidRes := -1 } [9] =
      (Except.error ForkError.SetsidFail, [Event.setsidCall]) :=
  (setsid_fail_no_slave_open { oAllOk with setsidRes := -1 } [9] rfl).1

/-- Claim C2: in the child branch, once the slave is opened it is
`dup2`-ed onto stdin, stdout, stderr in that fixed order,
short-circuiting on the first failure: each failure case yields
`Err(BadSlave e)` with a trace that stops at the failing `dup2` (the
later ones are absent, hence never attempted), and the all-success case
yields `Ok(Child(slave))` with the three `dup2` calls in order. -/
theorem child_dup2_order_shortcircuit (o : Oracle) (name : List Nat)
    (slave : Slave)
    (hs : ¬ o.setsidRes = -1)
    (ho : o.slaveNew name = Except.ok slave) :
    (∀ e, o.dup2 slave STDIN_FILENO = Except.error e →
      Fork.from_pts o name =
        (Except.error (ForkError.BadSlave e),
         [Event.setsidCall, Event.slaveNewCall name,
          Event.dup2Call STDIN_FILENO])) ∧
    (∀ v0 e, o.dup2 slave STDIN_FILENO = Except.ok v0 →
      o.dup2 slave STDOUT_FILENO = Except.error e →
      Fork.from_pts o name =
        (Except.error (ForkError.BadSlave e),
         [Event.setsidCall, Event.slaveNewCall name,
          Event.dup2Call STDIN_FILENO, Event.dup2Call STDOUT_FILENO])) ∧
    (∀ v0 v1 e, o.dup2 slave STDIN_FILENO = Except.ok v0 →
      o.dup2 slave STDOUT_FILENO = Except.ok v1 →
      o.dup2 slave STDERR_FILENO = Except.error e →
      Fork.from_pts o name =
        (Except.error (ForkError.BadSlave e),
         [Event.setsidCall, Event.slaveNewCall name,
          Event.dup2Call STDIN_FILENO, Event.dup2Call STDOUT_FILENO,
          Event.dup2Call STDERR_FILENO])) ∧
    (∀ v0 v1 v2, o.dup2 slave STDIN_FILENO = Except.ok v0 →
      o.dup2 slave STDOUT_FILENO = Except.ok v1 →
      o.dup2 slave STDERR_FILENO = Except.ok v2 →
      Fork.from_pts o name =
        (Except.ok (Fork.Child slave),
         [Event.setsidCall, Event.slaveNewCall name,
          Event.dup2Call STDIN_FILENO, Event.dup2Call STDOUT_FILENO,
          Event.dup2Call STDERR_FILENO])) := by
  refine ⟨?_, ?_, ?_, ?_⟩ <;> intros <;>
    simp_all [Fork.from_pts]

/-- Witness for C2: on `oAllOk` every `dup2` succeeds and `from_pts`
returns `Ok(Child)` with the three calls in order. -/
theorem child_dup2_order_witness :
    Fork.from_pts oAllOk [9] =
      (Except.ok (Fork.Child ⟨4⟩),
       [Event.setsidCall, Event.slaveNewCall [9],
        Event.dup2Call STDIN_FILENO, Event.dup2Call STDOUT_FILENO,
        Event.dup2Call STDERR_FILENO]) :=
  (child_dup2_order_shortcircuit oAllOk [9] ⟨4⟩ (by decide) rfl).2.2.2
    0 0 0 rfl rfl rfl

/-- The trace of `Fork::new` always begins with the master-open call on
the converted path. -/
theorem new_trace_cons (o : Oracle) (path : List Nat) :
    ∃ rest, (Fork.new o path).2 =
      Event.masterNewCall (cstringOf path) :: rest := by
  unfold Fork.new
  repeat' split
  all_goals exact ⟨_, rfl⟩

/-- Claim C10: for a path containing a NUL byte, the failed `CString`
conversion is silently replaced by the default (empty) C string:
`Fork::new` behaves exactly as on the empty path, `Master::new` is
attempted on the empty path, and a master-open failure surfaces as
`BadMaster` (no path-validity error exists). -/
theorem nul_path_silently_empty (o : Oracle) (path : List Nat)
    (h : 0 ∈ path) :
    Fork.new o path = Fork.new o ([] : List Nat) ∧
    (∃ rest, (Fork.new o path).2 = Event.masterNewCall [] :: rest) ∧
    (∀ cause, o.masterNew [] = Except.error cause →
      (Fork.new o path).1 = Except.error (ForkError.BadMaster cause)) := by
  have hc : cstringOf path = cstringOf ([] : List Nat) := by
    simp [cstringOf, cstringNew, h]
  have he : Fork.new o path = Fork.new o ([] : List Nat) := by
    unfold Fork.new
    rw [hc]
  refine ⟨he, ?_, ?_⟩
  · rw [he]
    have h0 := new_trace_cons o ([] : List Nat)
    simpa [cstringOf, cstringNew] using h0
  · intro cause hm
    rw [he]
    simp [Fork.new, cstringOf, cstringNew, hm]

/-- Witness for C10: the path `[47, 0]` contains a NUL byte and
`Fork::new` on it coincides with `Fork::new` on the empty path. -/
theorem nul_path_silently_empty_witness :
    (0 ∈ [47, 0]) ∧ Fork.new oAllOk [47, 0] = Fork.new oAllOk [] :=
  ⟨by decide, (nul_path_silently_empty oAllOk [47, 0] (by decide)).1⟩

/-- Behavior of the `wait` retry loop: if the first `k` calls to
`waitpid` (from call index `i`) return 0 and call `i + k` returns a
nonzero value, then with enough fuel the loop makes exactly `k + 1`
calls, returning `Err(WaitpidFail)` when that value is -1 and
`Ok(status)` (the status written by the last call) otherwise. -/
theorem waitLoop_spec (o : Oracle) (pid : Int) (k : Nat) :
    ∀ (i fuel : Nat),
      (∀ j, j < k → (o.waitpid pid (i + j)).1 = 0) →
      (o.waitpid pid (i + k)).1 ≠ 0 →
      k < fuel →
      waitLoop o pid fuel i =
        some ((if (o.waitpid pid (i + k)).1 = -1 then
                 Except.error ForkError.WaitpidFail
               else Except.ok (o.waitpid pid (i + k)).2),
          List.replicate (k + 1) (Event.waitpidCall pid)) := by
  induction k with
  | zero =>
      intro i fuel h0 hk hf
      obtain ⟨fuel, rfl⟩ : ∃ f, fuel = f + 1 := ⟨fuel - 1, by omega⟩
      have hk' : (o.waitpid pid i).1 ≠ 0 := by simpa using hk
      simp only [waitLoop]
      rw [if_neg hk']
      by_cases hm : (o.waitpid pid i).1 = -1
      · simp [hm]
      · simp [hm]
  | succ k ih =>
      intro i fuel h0 hk hf
      obtain ⟨fuel, rfl⟩ : ∃ f, fuel = f + 1 := ⟨fuel - 1, by omega⟩
      have hz : (o.waitpid pid (i + 0)).1 = 0 := h0 0 (Nat.succ_pos k)
      rw [Nat.add_zero] at hz
      have h0' : ∀ j, j < k → (o.waitpid pid (i + 1 + j)).1 = 0 := by
        intro j hj
        rw [Nat.add_right_comm]
        exact h0 (j + 1) (by omega)
      have hk' : (o.waitpid pid (i + 1 + k)).1 ≠ 0 := by
        rw [Nat.add_right_comm]
        exact hk
      have hrec := ih (i + 1) fuel h0' hk' (by omega)
      rw [show i + (k + 1) = i + 1 + k from by omega]
      simp only [waitLoop, hz, hrec, List.replicate_succ]
      simp

/-- Claim C6: on a `Parent`, `wait` retries the wait primitive exactly
while it signals "no status change yet" (return 0): if the first `k`
calls return 0 and call `k` returns nonzero, the loop stops there
(`k + 1` calls in the trace, so no retry after a definite result),
returning `Err(WaitpidFail)` when that result is -1 and `Ok` with the
status written by that call otherwise. -/
theorem wait_parent_retries_only_on_zero (o : Oracle) (pid : Int)
    (m : Master) (k fuel : Nat)
    (h0 : ∀ j, j < k → (o.waitpid pid j).1 = 0)
    (hk : (o.waitpid pid k).1 ≠ 0)
    (hf : k < fuel) :
    Fork.wait o (Fork.Parent pid m) fuel =
      some ((if (o.waitpid pid k).1 = -1 then
               Except.error ForkError.WaitpidFail
             else Except.ok (o.waitpid pid k).2),
        List.replicate (k + 1) (Event.waitpidCall pid)) := by
  have h := waitLoop_spec o pid k 0 fuel
    (fun j hj => by simpa using h0 j hj) (by simpa using hk) hf
  simpa [Fork.wait] using h

/-- Witness for C6: on `oAllOk`, whose `waitpid` immediately returns
(7, 42), `wait` on a `Parent` makes one call and returns `Ok 42`. -/
theorem wait_parent_retries_witness :
    Fork.wait oAllOk (Fork.Parent 9 ⟨3⟩) 1 =
      some ((if (oAllOk.waitpid 9 0).1 = -1 then
               Except.error ForkError.WaitpidFail
             else Except.ok (oAllOk.waitpid 9 0).2),
        List.replicate 1 (Event.waitpidCall 9)) :=
  wait_parent_retries_only_on_zero oAllOk 9 ⟨3⟩ 0 1
    (fun j hj => absurd hj (Nat.not_lt_zero j)) (by decide) Nat.one_pos

end PtyRs
